import Mathlib

/-!
Shallow embedding of the ICAI backend's interview-session core
(`ICAIapp/views.py`, `ICAIapp/models.py`, `ICAIapp/services/interview_engine.py`).

The database is modelled as the pair (session record, list of its turns);
each Django view becomes a pure function from the persisted state, the
caller, and the outcome of the (external, opaque) engine HTTP call to the
HTTP response plus the persisted state after the request.  Turn lists are
kept in ascending `order`, mirroring `InterviewTurn.Meta.ordering = ["order"]`.

JSON object values (`meta` fields) are opaque to the orchestrator; they are
modelled as plain strings, with `""` standing for the empty object `{}`.
-/

namespace ICAI

/-- Enumeration `InterviewSession.Status` (models.py, lines 123-128). -/
inductive Status where
  | CREATED
  | IN_PROGRESS
  | COMPLETED
  | FAILED
  | CANCELLED
deriving DecidableEq, Repr

/-- Row of `InterviewTurn` (models.py, lines 184-211): order is a positive
integer unique within the session; answer/feedback default to empty text,
score is nullable, meta defaults to the empty JSON object. -/
structure InterviewTurn where
  order : Nat
  question : String
  answer : String := ""
  feedback : String := ""
  score : Option Int := none
  meta : String := ""
deriving DecidableEq, Repr

/-- Row of `InterviewSession`.

Modelled from the spec: the `models.py` revision shipped under the sources
predates the one the views and serializers are written against — it lacks the
nullable owner (`user` with `null=True`, absent meaning guest-owned), the
guest `public_token` (a high-entropy opaque string generated at creation),
the `mode` field and the `evaluated_at` timestamp, all of which
`views.py`/`serializers.py` read and write.  Those four attributes are taken
from spec §3; every other field mirrors models.py lines 122-178. -/
structure InterviewSession where
  userId : Option Nat
  publicToken : String
  role : String
  position : String
  level : String
  techStack : List String
  mode : String
  fastapiSessionId : String
  status : Status
  overallFeedback : String := ""
  overallScore : Option Int := none
  overallMeta : String := ""
  startedAt : Option Nat := none
  endedAt : Option Nat := none
  evaluatedAt : Option Nat := none
deriving DecidableEq, Repr

/-- The caller of a request: DRF `request.user` (auth state and id) plus the
two places a guest token may be presented (`X-Interview-Token` header,
`?t=` query parameter). -/
structure Caller where
  isAuthenticated : Bool
  userId : Nat
  headerToken : Option String
  queryToken : Option String
deriving DecidableEq, Repr

/-- `InterviewEngineError` (services/interview_engine.py, lines 7-11):
a detail string plus the HTTP status suggested to the upstream caller. -/
structure EngineError where
  detail : String
  status_code : Nat
deriving DecidableEq, Repr

/-- Parsed JSON body of a generate response: `fastapi_session_id` and
`questions`; fields are read with `.get`, so each may be absent. -/
structure GenerateResp where
  fastapi_session_id : Option String
  questions : List String
deriving DecidableEq, Repr

/-- One element of `results` in an evaluate response; all fields are read
with `.get` defaults, so each may be absent (`none`). -/
structure EvalResultItem where
  order : Option Int
  feedback : Option String
  score : Option Int
  meta : Option String
deriving DecidableEq, Repr

/-- The optional `overall` object of an evaluate response. -/
structure EvalOverall where
  feedback : Option String
  score : Option Int
  meta : Option String
deriving DecidableEq, Repr

/-- Parsed JSON body of an evaluate response. -/
structure EvaluateResp where
  results : List EvalResultItem
  overall : Option EvalOverall
deriving DecidableEq, Repr

/-- Outcome of the single outbound HTTP POST performed by `_post`
(services/interview_engine.py): either a transport failure
(`httpx.RequestError`) or a response with a status code, a body text, and
the parsed JSON payload (`none` when the body is not valid JSON). -/
inductive HttpOutcome (α : Type) where
  | networkError (message : String)
  | response (statusCode : Nat) (body : String) (json : Option α)
deriving DecidableEq, Repr

/-- Whitespace as stripped by Python `str.strip()` (the common subset that
arises in HTTP payloads). -/
def isPySpace (c : Char) : Bool :=
  c = ' ' || c = '\t' || c = '\n' || c = '\r'

/-- Python `str.strip()`: drop leading and trailing whitespace.  (A
structural implementation over the character list, so that concrete
instances reduce inside the kernel.) -/
def pyStrip (s : String) : String :=
  String.mk (((s.data.dropWhile isPySpace).reverse.dropWhile isPySpace).reverse)

/-- Lowercase an ASCII character, as `str.lower()` does on the ASCII range. -/
def pyLowerChar (c : Char) : Char :=
  if 'A' ≤ c ∧ c ≤ 'Z' then Char.ofNat (c.toNat + 32) else c

/-- Python `str.lower()` (restricted to ASCII case folding). -/
def pyLower (s : String) : String :=
  String.mk (s.data.map pyLowerChar)

/-- `_post` (services/interview_engine.py, lines 24-52): classify the HTTP
outcome into a parsed payload or a typed `InterviewEngineError`. -/
def enginePost {α : Type} : HttpOutcome α → Except EngineError α
  | .networkError message =>
      .error { detail := "Network error contacting interview engine: " ++ message,
               status_code := 502 }
  | .response statusCode body json =>
      if statusCode < 200 ∨ 300 ≤ statusCode then
        let b := pyStrip body
        if statusCode = 400 then
          .error { detail := if b = "" then "Bad request to interview engine." else b,
                   status_code := 400 }
        else if 500 ≤ statusCode then
          .error { detail := "Interview engine error " ++ toString statusCode ++ ": " ++ b,
                   status_code := 502 }
        else
          .error { detail := "Interview engine error " ++ toString statusCode ++ ": " ++ b,
                   status_code := 502 }
      else
        match json with
        | some value => .ok value
        | none => .error { detail := "Invalid JSON received from interview engine.",
                           status_code := 502 }

/-- Result of `can_access_session`: plain return (allow) or the
`PermissionDenied` detail (DRF turns the exception into HTTP 403). -/
inductive AccessResult where
  | allowed
  | denied (detail : String)
deriving DecidableEq, Repr

/-- Python truthiness of `session.user_id` (an `Option Nat` here):
`None` and `0` are falsy.  Django primary keys are always ≥ 1, so in
reachable states truthiness coincides with presence. -/
def truthyUserId : Option Nat → Bool
  | none => false
  | some u => u != 0

/-- Python `a or b` over two optional strings, as in
`request.headers.get("X-Interview-Token") or request.query_params.get("t")`:
a missing or empty first operand falls through to the second. -/
def pyOr : Option String → Option String → Option String
  | some s, b => if s = "" then b else some s
  | none, b => b

/-- `can_access_session` (views.py, lines 51-59).  Owned sessions require the
authenticated owner; ownerless sessions require a presented token equal to
the stored public token (compared with Python `!=`, i.e. ordinary
short-circuiting string equality — not a constant-time comparison). -/
def can_access_session (s : InterviewSession) (req : Caller) : AccessResult :=
  if truthyUserId s.userId then
    if !req.isAuthenticated || s.userId ≠ some req.userId then
      .denied "You do not have access to this interview session."
    else
      .allowed
  else
    match pyOr req.headerToken req.queryToken with
    | none => .denied "Missing or invalid interview token."
    | some token =>
        if token = "" ∨ token ≠ s.publicToken then
          .denied "Missing or invalid interview token."
        else
          .allowed

/-- Validated body of `POST /api/interviews/`
(`InterviewSessionCreateSerializer`): role, position, level, mode, stack,
and the optional write-only initial question count. -/
structure CreateRequest where
  role : String
  position : String
  level : String
  stack : List String
  mode : String
  count : Option Nat
deriving DecidableEq, Repr

/-- Response and persisted state after a create request: HTTP status,
error detail (empty on success), the persisted session and its turns, and
the `public_token` attached to the response body for guest sessions. -/
structure CreateOutcome where
  httpStatus : Nat
  detail : String
  session : InterviewSession
  turns : List InterviewTurn
  publicTokenInResponse : Option String
deriving DecidableEq, Repr

/-- Response and persisted state of the other session views. -/
structure ViewOutcome where
  httpStatus : Nat
  detail : String
  session : InterviewSession
  turns : List InterviewTurn
deriving DecidableEq, Repr

/-- `[q.strip() for q in resp.get("questions", []) if q and q.strip()]`
(views.py, lines 115 and 207-209): keep the questions that are non-blank
after stripping, stripped. -/
def usableQuestions (qs : List String) : List String :=
  (qs.filter (fun q => pyStrip q ≠ "")).map (fun q => pyStrip q)

/-- The set (as a list used only for membership) of stripped, lowercased
existing question texts (views.py, lines 176-180). -/
def normalizedSet (qs : List String) : List String :=
  (qs.filter (fun q => pyStrip q ≠ "")).map (fun q => pyLower (pyStrip q))

/-- Drop the questions whose stripped, lowercased text duplicates a member
of `existing` (views.py, lines 210-212). -/
def dedupAgainst (existing : List String) (qs : List String) : List String :=
  qs.filter (fun q => !(existing.contains (pyLower (pyStrip q))))

/-- `session.turns.aggregate(Max("order"))["order__max"] or 0`
(views.py, line 182): the maximum existing order, `0` when there are no
turns. -/
def maxOrder (turns : List InterviewTurn) : Nat :=
  (turns.map (fun t => t.order)).foldr Nat.max 0

/-- Lines 204-205 of views.py: adopt the engine's session id only when the
response carries a truthy one and the stored one is still empty. -/
def updateFastapiId (s : InterviewSession) (respId : Option String) : InterviewSession :=
  match respId with
  | some v => if v ≠ "" ∧ s.fastapiSessionId = "" then { s with fastapiSessionId := v } else s
  | none => s

/-- The deduplicated question list of a generate-more call
(views.py, lines 175-180 and 207-212). -/
def gmQuestions (turns : List InterviewTurn) (resp : GenerateResp) : List String :=
  dedupAgainst (normalizedSet (turns.map (fun t => t.question))) (usableQuestions resp.questions)

/-- `InterviewSessionListCreateView.post` (views.py, lines 79-139).

Arguments: the validated request, the owner (`request.user` when
authenticated, else `none`), the public token generated at creation
(modelled from the spec, see `InterviewSession`), the current time, and the
outcome of the engine `generate_questions` call.  The whole body runs in
one transaction; an early `return` commits whatever was saved before it,
so the FAILED branches persist the FAILED session with no turns. -/
def createSessionView (req : CreateRequest) (user : Option Nat) (tok : String) (now : Nat)
    (engine : Except EngineError GenerateResp) : CreateOutcome :=
  let session0 : InterviewSession :=
    { userId := user, publicToken := tok, role := req.role, position := req.position,
      level := req.level, techStack := req.stack, mode := req.mode,
      fastapiSessionId := "", status := Status.CREATED }
  match engine with
  | .error exc =>
      { httpStatus := exc.status_code, detail := exc.detail,
        session := { session0 with status := Status.FAILED }, turns := [],
        publicTokenInResponse := none }
  | .ok resp =>
      let questions := usableQuestions resp.questions
      if questions.isEmpty then
        { httpStatus := 502, detail := "Interview engine returned no questions.",
          session := { session0 with status := Status.FAILED }, turns := [],
          publicTokenInResponse := none }
      else
        let session1 := { session0 with
          fastapiSessionId := resp.fastapi_session_id.getD "",
          status := Status.IN_PROGRESS,
          startedAt := some (session0.startedAt.getD now) }
        let turns := (List.enumFrom 0 questions).map
          (fun iq => ({ order := iq.1 + 1, question := iq.2 } : InterviewTurn))
        { httpStatus := 201, detail := "", session := session1, turns := turns,
          publicTokenInResponse :=
            if session1.userId = none then some session1.publicToken else none }

/-- `InterviewGenerateView.post` (views.py, lines 159-231).

No session-status check is performed anywhere in this view.  The
`fastapi_session_id` adopted at line 204-205 is only persisted by the
`session.save` after the bulk create, so the 400 "no new questions" return
leaves the persisted session untouched. -/
def generateMoreView (s : InterviewSession) (turns : List InterviewTurn) (caller : Caller)
    (count : Nat) (engine : Except EngineError GenerateResp) : ViewOutcome :=
  let _boundedCount := Nat.min count 50
  match can_access_session s caller with
  | .denied d => { httpStatus := 403, detail := d, session := s, turns := turns }
  | .allowed =>
      let next_order := maxOrder turns + 1
      match engine with
      | .error exc => { httpStatus := exc.status_code, detail := exc.detail,
                        session := s, turns := turns }
      | .ok resp =>
          let s1 := updateFastapiId s resp.fastapi_session_id
          let questions_list := gmQuestions turns resp
          if questions_list.isEmpty then
            { httpStatus := 400, detail := "No new questions generated.",
              session := s, turns := turns }
          else
            let newTurns := (List.enumFrom 0 questions_list).map
              (fun iq => ({ order := next_order + iq.1, question := iq.2 } : InterviewTurn))
            { httpStatus := 200, detail := "",
              session := { s1 with status := Status.IN_PROGRESS },
              turns := turns ++ newTurns }

/-- `InterviewQuestionDetailView.delete` (views.py, lines 252-257): remove
the turn with the given order (404 when absent); siblings keep their
orders and the session row is untouched. -/
def deleteTurnView (s : InterviewSession) (turns : List InterviewTurn) (caller : Caller)
    (order : Nat) : ViewOutcome :=
  match can_access_session s caller with
  | .denied d => { httpStatus := 403, detail := d, session := s, turns := turns }
  | .allowed =>
      if turns.any (fun t => t.order == order) then
        { httpStatus := 204, detail := "", session := s,
          turns := turns.filter (fun t => t.order != order) }
      else
        { httpStatus := 404, detail := "Not found.", session := s, turns := turns }

/-- Orders of the turns whose answer is blank after trimming
(views.py, line 273). -/
def missingAnswerOrders (turns : List InterviewTurn) : List Nat :=
  (turns.filter (fun t => pyStrip t.answer = "")).map (fun t => t.order)

/-- `", ".join(str(order) for order in orders)`. -/
def ordersDisplay (orders : List Nat) : String :=
  String.intercalate ", " (orders.map (fun o => toString o))

/-- Whether the evaluate response carries a result keyed by this turn
order (views.py, lines 299-301). -/
def hasResultFor (items : List EvalResultItem) (o : Nat) : Bool :=
  items.any (fun it => it.order == some (Int.ofNat o))

/-- `expected_orders - returned_orders` (views.py, lines 300-302), listed in
the ascending order of the turns. -/
def missingResultOrders (turns : List InterviewTurn) (items : List EvalResultItem) : List Nat :=
  (turns.map (fun t => t.order)).filter (fun o => !(hasResultFor items o))

/-- Insert into a sorted list of naturals. -/
def insertSorted (n : Nat) : List Nat → List Nat
  | [] => [n]
  | m :: ms => if n ≤ m then n :: m :: ms else m :: insertSorted n ms

/-- Python `sorted` over naturals (insertion sort). -/
def sortNat : List Nat → List Nat
  | [] => []
  | n :: ns => insertSorted n (sortNat ns)

/-- `results = {item.get("order"): item for item in resp["results"]}` followed
by `results.get(turn.order)`: a later duplicate key overwrites an earlier
one, so the lookup yields the last matching item. -/
def resultsLookup (items : List EvalResultItem) (o : Nat) : Option EvalResultItem :=
  (items.filter (fun it => it.order == some (Int.ofNat o))).getLast?

/-- Per-turn update on full evaluate success (views.py, lines 316-323):
`result.get("feedback", "") or ""`, `result.get("score", None)`,
`result.get("meta", {}) or {}`. -/
def applyResult (t : InterviewTurn) (r : EvalResultItem) : InterviewTurn :=
  { t with feedback := r.feedback.getD "", score := r.score, meta := r.meta.getD "" }

/-- The turn list after the per-turn update loop (views.py, lines 316-323);
a turn with no matching result is left unchanged (`continue`). -/
def updateTurns (items : List EvalResultItem) (turns : List InterviewTurn) :
    List InterviewTurn :=
  turns.map (fun t =>
    match resultsLookup items t.order with
    | none => t
    | some r => applyResult t r)

/-- Session-level update from the optional `overall` object
(views.py, lines 325-329). -/
def applyOverall (s : InterviewSession) (ov : Option EvalOverall) : InterviewSession :=
  match ov with
  | none => s
  | some o => { s with overallFeedback := o.feedback.getD "",
                       overallScore := o.score,
                       overallMeta := o.meta.getD "" }

/-- `InterviewEvaluateView.post` (views.py, lines 260-347).  No
session-status check is performed.  All returns before the final
transaction leave the persisted session and turns untouched. -/
def evaluateView (s : InterviewSession) (turns : List InterviewTurn) (caller : Caller)
    (now : Nat) (engine : Except EngineError EvaluateResp) : ViewOutcome :=
  match can_access_session s caller with
  | .denied d => { httpStatus := 403, detail := d, session := s, turns := turns }
  | .allowed =>
      let missing := missingAnswerOrders turns
      if !missing.isEmpty then
        { httpStatus := 400,
          detail := "Missing answers for questions: " ++ ordersDisplay missing,
          session := s, turns := turns }
      else
        match engine with
        | .error exc => { httpStatus := exc.status_code, detail := exc.detail,
                          session := s, turns := turns }
        | .ok resp =>
            let missing2 := missingResultOrders turns resp.results
            if !missing2.isEmpty then
              { httpStatus := 502,
                detail := "Interview engine returned incomplete results for orders: "
                            ++ ordersDisplay (sortNat missing2),
                session := s, turns := turns }
            else
              let turns2 := updateTurns resp.results turns
              let s2 := applyOverall s resp.overall
              { httpStatus := 200, detail := "",
                session := { s2 with status := Status.COMPLETED,
                                     endedAt := some now, evaluatedAt := some now },
                turns := turns2 }

/-! Concrete sample states used by the closed theorems below. -/

/-- A guest-owned session already in the terminal status COMPLETED. -/
def completedGuestSession : InterviewSession :=
  { userId := none, publicToken := "tok-guest", role := "backend", position := "dev",
    level := "SENIOR", techStack := ["python"], mode := "practice",
    fastapiSessionId := "fs-1", status := Status.COMPLETED,
    startedAt := some 1, endedAt := some 2, evaluatedAt := some 2 }

/-- A guest caller presenting the matching token. -/
def guestTokenCaller : Caller :=
  { isAuthenticated := false, userId := 0, headerToken := some "tok-guest",
    queryToken := none }

/-- A FAILED guest session. -/
def failedGuestSession : InterviewSession :=
  { userId := none, publicToken := "tok-guest", role := "backend", position := "",
    level := "MID_I", techStack := [], mode := "practice",
    fastapiSessionId := "", status := Status.FAILED }

/-- An IN_PROGRESS guest session whose turn list will carry orders 1 and 3
(order 2 deleted). -/
def gapGuestSession : InterviewSession :=
  { userId := none, publicToken := "tok-guest", role := "backend", position := "",
    level := "SENIOR", techStack := [], mode := "practice",
    fastapiSessionId := "fs-9", status := Status.IN_PROGRESS, startedAt := some 1 }

/-! Helper lemmas about the turn-building combinators. -/

theorem createTurns_orders (n : Nat) (qs : List String) :
    (((List.enumFrom n qs).map
        (fun iq => ({ order := iq.1 + 1, question := iq.2 } : InterviewTurn))).map
      (fun t => t.order)) = List.range' (n + 1) qs.length := by
  induction qs generalizing n with
  | nil => rfl
  | cons a l ih => simp [List.enumFrom, List.range', ih]

theorem genTurns_orders (k n : Nat) (qs : List String) :
    (((List.enumFrom n qs).map
        (fun iq => ({ order := k + iq.1, question := iq.2 } : InterviewTurn))).map
      (fun t => t.order)) = List.range' (k + n) qs.length := by
  induction qs generalizing n with
  | nil => rfl
  | cons a l ih =>
      simp only [List.enumFrom, List.map_cons, List.length_cons, List.range']
      rw [ih (n + 1), ← Nat.add_assoc]

theorem genTurns_questions (f : Nat → Nat) (n : Nat) (qs : List String) :
    (((List.enumFrom n qs).map
        (fun iq => ({ order := f iq.1, question := iq.2 } : InterviewTurn))).map
      (fun t => t.question)) = qs := by
  induction qs generalizing n with
  | nil => rfl
  | cons a l ih => simp [List.enumFrom, ih]

theorem le_foldr_max (l : List Nat) : ∀ x ∈ l, x ≤ l.foldr Nat.max 0 := by
  induction l with
  | nil => intro x hx; cases hx
  | cons a l ih =>
      intro x hx
      cases hx with
      | head => exact Nat.le_max_left _ _
      | tail _ h => exact Nat.le_trans (ih x h) (Nat.le_max_right _ _)

/-- Claim C1: every create ends in IN_PROGRESS with turns ordered exactly
1..N contiguously (N ≥ 1), or in FAILED with zero persisted turns; no third
combination is reachable. -/
theorem create_session_dichotomy (req : CreateRequest) (user : Option Nat) (tok : String)
    (now : Nat) (engine : Except EngineError GenerateResp) :
    ((createSessionView req user tok now engine).session.status = Status.IN_PROGRESS ∧
      (createSessionView req user tok now engine).turns ≠ [] ∧
      (createSessionView req user tok now engine).turns.map (fun t => t.order) =
        List.range' 1 (createSessionView req user tok now engine).turns.length) ∨
    ((createSessionView req user tok now engine).session.status = Status.FAILED ∧
      (createSessionView req user tok now engine).turns = []) := by
  cases engine with
  | error exc => exact Or.inr ⟨rfl, rfl⟩
  | ok resp =>
      rcases hq : usableQuestions resp.questions with _ | ⟨q, qs⟩
      · exact Or.inr (by constructor <;> simp [createSessionView, hq])
      · refine Or.inl ⟨?_, ?_, ?_⟩
        · simp [createSessionView, hq]
        · simp [createSessionView, hq]
        · simp only [createSessionView, hq]
          simpa using createTurns_orders 0 (q :: qs)

/-- Claim C2: a session may be created with no owning user, and a
successful guest create persists the token generated at creation and
returns it in the response body. -/
theorem guest_create_public_token (req : CreateRequest) (tok : String) (now : Nat)
    (resp : GenerateResp) (h : usableQuestions resp.questions ≠ []) :
    (createSessionView req none tok now (.ok resp)).httpStatus = 201 ∧
    (createSessionView req none tok now (.ok resp)).session.userId = none ∧
    (createSessionView req none tok now (.ok resp)).session.publicToken = tok ∧
    (createSessionView req none tok now (.ok resp)).publicTokenInResponse = some tok := by
  rcases hq : usableQuestions resp.questions with _ | ⟨q, qs⟩
  · exact absurd hq h
  · refine ⟨?_, ?_, ?_, ?_⟩ <;> simp [createSessionView, hq]

/-- Witness for C2 at a concrete guest create. -/
theorem guest_create_public_token_witness :
    (createSessionView ⟨"backend", "", "SENIOR", [], "practice", none⟩ none "tok-abc123" 0
        (.ok ⟨some "fs-1", ["Tell me about Django."]⟩)).publicTokenInResponse =
      some "tok-abc123" :=
  (guest_create_public_token ⟨"backend", "", "SENIOR", [], "practice", none⟩ "tok-abc123" 0
      ⟨some "fs-1", ["Tell me about Django."]⟩ (by decide)).2.2.2

/-- Claim C3 counterexample: `InterviewGenerateView.post` performs no
status check, so a generate-more call on a COMPLETED (terminal) session
that persists a fresh question moves the session back to IN_PROGRESS. -/
theorem generate_more_escapes_terminal :
    completedGuestSession.status = Status.COMPLETED ∧
    (generateMoreView completedGuestSession
        [{ order := 1, question := "Old question?", answer := "done" }]
        guestTokenCaller 2
        (.ok ⟨some "fs-1", ["A brand new question?"]⟩)).session.status =
      Status.IN_PROGRESS := by
  decide

/-- Claim C3 (amended): the code enforces no terminal statuses.  A
generate-more call that persists nothing (denied access, engine failure,
or no new questions after deduplication) leaves the status unchanged, and
a generate-more call that persists new turns sets the status to
IN_PROGRESS regardless of the prior status — including out of COMPLETED,
FAILED or CANCELLED. -/
theorem generate_more_status_behavior (s : InterviewSession) (turns : List InterviewTurn)
    (caller : Caller) (count : Nat) (engine : Except EngineError GenerateResp) :
    ((generateMoreView s turns caller count engine).turns = turns →
      (generateMoreView s turns caller count engine).session.status = s.status) ∧
    ((generateMoreView s turns caller count engine).turns ≠ turns →
      (generateMoreView s turns caller count engine).session.status =
        Status.IN_PROGRESS) := by
  cases hacc : can_access_session s caller with
  | denied d =>
      constructor
      · intro _h; simp [generateMoreView, hacc]
      · intro hne; exact absurd (by simp [generateMoreView, hacc]) hne
  | allowed =>
      cases engine with
      | error exc =>
          constructor
          · intro _h; simp [generateMoreView, hacc]
          · intro hne; exact absurd (by simp [generateMoreView, hacc]) hne
      | ok resp =>
          rcases hql : gmQuestions turns resp with _ | ⟨q, qs⟩
          · constructor
            · intro _h; simp [generateMoreView, hacc, hql]
            · intro hne; exact absurd (by simp [generateMoreView, hacc, hql]) hne
          · constructor
            · intro h
              exfalso
              have hlen := congrArg List.length h
              simp [generateMoreView, hacc, hql, List.length_append] at hlen
            · intro _hne; simp [generateMoreView, hacc, hql]

/-- Witness for the amended C3 at a concrete terminal session. -/
theorem generate_more_status_behavior_witness :
    (generateMoreView failedGuestSession [] guestTokenCaller 1
        (.ok ⟨none, ["First question?"]⟩)).session.status = Status.IN_PROGRESS :=
  (generate_more_status_behavior failedGuestSession [] guestTokenCaller 1
      (.ok ⟨none, ["First question?"]⟩)).2 (by decide)

/-- Claim C4: a generate-more call that persists new turns numbers them
consecutively from (max existing order, default 0) + 1, preserving the
engine's return order after filtering, and every new order is strictly
greater than every existing order — freed orders are never reused and gaps
are never compacted. -/
theorem generate_more_appends_after_max (s : InterviewSession) (turns : List InterviewTurn)
    (caller : Caller) (count : Nat) (resp : GenerateResp)
    (hacc : can_access_session s caller = .allowed)
    (hq : gmQuestions turns resp ≠ []) :
    (generateMoreView s turns caller count (.ok resp)).httpStatus = 200 ∧
    (generateMoreView s turns caller count (.ok resp)).turns.map (fun t => t.order) =
      turns.map (fun t => t.order) ++
        List.range' (maxOrder turns + 1) (gmQuestions turns resp).length ∧
    ((generateMoreView s turns caller count (.ok resp)).turns.drop turns.length).map
        (fun t => t.question) = gmQuestions turns resp ∧
    ∀ told ∈ turns,
      ∀ tnew ∈ (generateMoreView s turns caller count (.ok resp)).turns.drop turns.length,
        told.order < tnew.order := by
  rcases hql : gmQuestions turns resp with _ | ⟨q, qs⟩
  · exact absurd hql hq
  · have hdrop :
        (generateMoreView s turns caller count (.ok resp)).turns.drop turns.length =
          (List.enumFrom 0 (q :: qs)).map
            (fun iq => ({ order := maxOrder turns + 1 + iq.1, question := iq.2 } :
              InterviewTurn)) := by
      simp [generateMoreView, hacc, hql, List.drop_left]
    refine ⟨?_, ?_, ?_, ?_⟩
    · simp [generateMoreView, hacc, hql]
    · have h := genTurns_orders (maxOrder turns + 1) 0 (q :: qs)
      simp [generateMoreView, hacc, hql, List.map_append]
      simpa using h
    · rw [hdrop]
      exact genTurns_questions (fun i => maxOrder turns + 1 + i) 0 (q :: qs)
    · intro told htold tnew htnew
      rw [hdrop] at htnew
      have horder : tnew.order ∈
          ((List.enumFrom 0 (q :: qs)).map
            (fun iq => ({ order := maxOrder turns + 1 + iq.1, question := iq.2 } :
              InterviewTurn))).map (fun t => t.order) :=
        List.mem_map_of_mem (fun t => t.order) htnew
      rw [genTurns_orders (maxOrder turns + 1) 0 (q :: qs)] at horder
      have hge : maxOrder turns + 1 ≤ tnew.order := by
        have := List.mem_range'_1.mp (by simpa using horder)
        omega
      have hmax : maxOrder turns = (turns.map (fun t => t.order)).foldr Nat.max 0 := rfl
      have hle : told.order ≤ (turns.map (fun t => t.order)).foldr Nat.max 0 :=
        le_foldr_max (turns.map (fun t => t.order)) told.order
          (List.mem_map_of_mem (fun t => t.order) htold)
      omega

/-- Witness for C4: after deleting order 2 from orders 1,2,3, generation
appends starting at order 4. -/
theorem generate_more_appends_after_max_witness :
    (generateMoreView gapGuestSession
        [{ order := 1, question := "Q1", answer := "a1" },
         { order := 3, question := "Q3", answer := "a3" }]
        guestTokenCaller 1 (.ok ⟨some "fs-9", ["Q4"]⟩)).httpStatus = 200 :=
  (generate_more_appends_after_max gapGuestSession
      [{ order := 1, question := "Q1", answer := "a1" },
       { order := 3, question := "Q3", answer := "a3" }]
      guestTokenCaller 1 ⟨some "fs-9", ["Q4"]⟩ (by decide) (by decide)).1

/-- Claim C5: evaluate mutates nothing unless it fully succeeds — a blank
answer yields 400 listing the missing orders, an engine failure yields the
classified error, and an incomplete result set yields 502; in each case the
persisted session and turns are exactly the input state. -/
theorem evaluate_error_paths (s : InterviewSession) (turns : List InterviewTurn)
    (caller : Caller) (now : Nat) (engine : Except EngineError EvaluateResp)
    (hacc : can_access_session s caller = .allowed) :
    (missingAnswerOrders turns ≠ [] →
      (evaluateView s turns caller now engine).httpStatus = 400 ∧
      (evaluateView s turns caller now engine).detail =
        "Missing answers for questions: " ++ ordersDisplay (missingAnswerOrders turns) ∧
      (evaluateView s turns caller now engine).session = s ∧
      (evaluateView s turns caller now engine).turns = turns) ∧
    (∀ exc, missingAnswerOrders turns = [] → engine = .error exc →
      (evaluateView s turns caller now engine).httpStatus = exc.status_code ∧
      (evaluateView s turns caller now engine).detail = exc.detail ∧
      (evaluateView s turns caller now engine).session = s ∧
      (evaluateView s turns caller now engine).turns = turns) ∧
    (∀ resp, missingAnswerOrders turns = [] → engine = .ok resp →
      missingResultOrders turns resp.results ≠ [] →
      (evaluateView s turns caller now engine).httpStatus = 502 ∧
      (evaluateView s turns caller now engine).session = s ∧
      (evaluateView s turns caller now engine).turns = turns) := by
  refine ⟨?_, ?_, ?_⟩
  · intro hm
    rcases hml : missingAnswerOrders turns with _ | ⟨o, os⟩
    · exact absurd hml hm
    · refine ⟨?_, ?_, ?_, ?_⟩ <;> simp [evaluateView, hacc, hml]
  · intro exc hml heng
    subst heng
    refine ⟨?_, ?_, ?_, ?_⟩ <;> simp [evaluateView, hacc, hml]
  · intro resp hml heng h2
    subst heng
    rcases hml2 : missingResultOrders turns resp.results with _ | ⟨o, os⟩
    · exact absurd hml2 h2
    · refine ⟨?_, ?_, ?_⟩ <;> simp [evaluateView, hacc, hml, hml2]

/-- Witness for C5: a blank second answer is rejected with 400. -/
theorem evaluate_error_paths_witness :
    (evaluateView gapGuestSession
        [{ order := 1, question := "Q1", answer := "fine" },
         { order := 2, question := "Q2", answer := "   " }]
        guestTokenCaller 0 (.ok ⟨[], none⟩)).httpStatus = 400 :=
  ((evaluate_error_paths gapGuestSession
      [{ order := 1, question := "Q1", answer := "fine" },
       { order := 2, question := "Q2", answer := "   " }]
      guestTokenCaller 0 (.ok ⟨[], none⟩) (by decide)).1 (by decide)).1

/-- Claim C6 counterexample: a fully successful evaluation whose result
item for order 1 carries no score leaves that turn's score null even
though the session is COMPLETED — refuting "afterwards every turn has
non-null feedback and score". -/
theorem evaluate_success_may_leave_null_score :
    (evaluateView gapGuestSession
        [{ order := 1, question := "Q1", answer := "an answer" }] guestTokenCaller 5
        (.ok ⟨[⟨some 1, some "good work", none, none⟩],
              some ⟨some "overall", some 7, none⟩⟩)).httpStatus = 200 ∧
    (evaluateView gapGuestSession
        [{ order := 1, question := "Q1", answer := "an answer" }] guestTokenCaller 5
        (.ok ⟨[⟨some 1, some "good work", none, none⟩],
              some ⟨some "overall", some 7, none⟩⟩)).session.status = Status.COMPLETED ∧
    ((evaluateView gapGuestSession
        [{ order := 1, question := "Q1", answer := "an answer" }] guestTokenCaller 5
        (.ok ⟨[⟨some 1, some "good work", none, none⟩],
              some ⟨some "overall", some 7, none⟩⟩)).turns.map (fun t => t.score)) =
      [none] := by
  decide

theorem exists_getLast?_of_ne_nil {α : Type} (l : List α) (h : l ≠ []) :
    ∃ a, l.getLast? = some a := by
  cases l with
  | nil => exact absurd rfl h
  | cons a t =>
      exact ⟨(a :: t).getLast (by simp), List.getLast?_eq_getLast (a :: t) (by simp)⟩

/-- Claim C6 (amended): when evaluate fully succeeds, in one transaction
every turn's feedback/score/meta are set from its matching result (the
score stays null when the result carries none, per the degrade-to-default
rule), the session's overall fields are set from the `overall` object when
present, the status becomes COMPLETED, and `ended_at`/`evaluated_at` are
stamped. -/
theorem evaluate_success_updates (s : InterviewSession) (turns : List InterviewTurn)
    (caller : Caller) (now : Nat) (resp : EvaluateResp)
    (hacc : can_access_session s caller = .allowed)
    (hans : missingAnswerOrders turns = [])
    (hres : missingResultOrders turns resp.results = []) :
    (evaluateView s turns caller now (.ok resp)).httpStatus = 200 ∧
    (evaluateView s turns caller now (.ok resp)).session.status = Status.COMPLETED ∧
    (evaluateView s turns caller now (.ok resp)).session.endedAt = some now ∧
    (evaluateView s turns caller now (.ok resp)).session.evaluatedAt = some now ∧
    (∀ ov, resp.overall = some ov →
      (evaluateView s turns caller now (.ok resp)).session.overallFeedback =
          ov.feedback.getD "" ∧
      (evaluateView s turns caller now (.ok resp)).session.overallScore = ov.score ∧
      (evaluateView s turns caller now (.ok resp)).session.overallMeta = ov.meta.getD "") ∧
    (∀ i t, turns.get? i = some t →
      ∃ r, resultsLookup resp.results t.order = some r ∧
        (evaluateView s turns caller now (.ok resp)).turns.get? i =
          some (applyResult t r)) := by
  have hout : evaluateView s turns caller now (.ok resp) =
      { httpStatus := 200, detail := "",
        session :=
          { applyOverall s resp.overall with
            status := Status.COMPLETED,
            endedAt := some now, evaluatedAt := some now },
        turns := updateTurns resp.results turns } := by
    simp [evaluateView, hacc, hans, hres]
  refine ⟨?_, ?_, ?_, ?_, ?_, ?_⟩
  · rw [hout]
  · rw [hout]
  · rw [hout]
  · rw [hout]
  · intro ov hov
    rw [hout]
    refine ⟨?_, ?_, ?_⟩ <;> simp [applyOverall, hov]
  · intro i t ht
    have hmem : t.order ∈ turns.map (fun t => t.order) :=
      List.mem_map_of_mem (fun t => t.order) (List.get?_mem ht)
    have ho : hasResultFor resp.results t.order = true := by
      have hfe := List.filter_eq_nil_iff.mp hres t.order hmem
      simpa using hfe
    obtain ⟨it, hit, hpit⟩ : ∃ x ∈ resp.results, x.order = some (Int.ofNat t.order) := by
      simpa [hasResultFor] using ho
    have hpit2 : (it.order == some (Int.ofNat t.order)) = true := by simpa using hpit
    have hmemf : it ∈ resp.results.filter
        (fun x => x.order == some (Int.ofNat t.order)) :=
      List.mem_filter.mpr ⟨hit, hpit2⟩
    obtain ⟨r, hr⟩ :=
      exists_getLast?_of_ne_nil _ (List.ne_nil_of_mem hmemf)
    have hlook : resultsLookup resp.results t.order = some r := hr
    refine ⟨r, hlook, ?_⟩
    rw [hout]
    have ht2 : turns[i]? = some t := by
      simpa [← List.get?_eq_getElem?] using ht
    simp only [updateTurns, List.get?_eq_getElem?, List.getElem?_map, ht2, Option.map_some]
    exact congrArg some (by
      show (match resultsLookup resp.results t.order with
            | none => t
            | some r => applyResult t r) = applyResult t r
      rw [hlook])

/-- Witness for the amended C6 at a concrete full success. -/
theorem evaluate_success_updates_witness :
    (evaluateView gapGuestSession
        [{ order := 1, question := "Q1", answer := "ans" }] guestTokenCaller 3
        (.ok ⟨[⟨some 1, some "fb", some 8, some "m"⟩], none⟩)).httpStatus = 200 :=
  (evaluate_success_updates gapGuestSession
      [{ order := 1, question := "Q1", answer := "ans" }] guestTokenCaller 3
      ⟨[⟨some 1, some "fb", some 8, some "m"⟩], none⟩
      (by decide) (by decide) (by decide)).1

/-- Claim C10: on a session with zero turns, an authorized evaluate is not
rejected for missing answers, and any engine response — even one with an
empty result list — completes the session with no per-turn results. -/
theorem evaluate_empty_completes (s : InterviewSession) (caller : Caller) (now : Nat)
    (resp : EvaluateResp) (hacc : can_access_session s caller = .allowed) :
    (evaluateView s [] caller now (.ok resp)).httpStatus = 200 ∧
    (evaluateView s [] caller now (.ok resp)).session.status = Status.COMPLETED ∧
    (evaluateView s [] caller now (.ok resp)).turns = [] := by
  refine ⟨?_, ?_, ?_⟩ <;>
    simp [evaluateView, hacc, missingAnswerOrders, missingResultOrders, updateTurns]

/-- Witness for C10: evaluating a turnless session with an empty result
list returns 200. -/
theorem evaluate_empty_completes_witness :
    (evaluateView failedGuestSession [] guestTokenCaller 9
        (.ok ⟨[], none⟩)).httpStatus = 200 :=
  (evaluate_empty_completes failedGuestSession guestTokenCaller 9 ⟨[], none⟩
      (by decide)).1

theorem guest_access_iff (s : InterviewSession) (c : Caller)
    (hfalse : truthyUserId s.userId = false) :
    can_access_session s c = .allowed ↔
      ∃ t, pyOr c.headerToken c.queryToken = some t ∧ t ≠ "" ∧ t = s.publicToken := by
  cases hp : pyOr c.headerToken c.queryToken with
  | none => simp [can_access_session, hfalse, hp]
  | some t =>
      by_cases hte : t = ""
      · subst hte
        simp [can_access_session, hfalse, hp]
      · by_cases htok : t = s.publicToken
        · simp [can_access_session, hfalse, hp, hte, htok]
        · simp [can_access_session, hfalse, hp, hte, htok]

/-- Claim C7 (functional behavior of the check): access is allowed on an
owned session exactly when the caller is the authenticated owner, and on an
ownerless session exactly when a non-empty token was presented (header
first, query parameter as fallback) that equals the stored public token.
The comparison itself is Python `!=` — ordinary short-circuiting string
equality, not a constant-time comparison. -/
theorem can_access_session_characterization (s : InterviewSession) (c : Caller) :
    can_access_session s c = .allowed ↔
      ((∃ u, s.userId = some u ∧ u ≠ 0 ∧ c.isAuthenticated = true ∧ c.userId = u) ∨
       (truthyUserId s.userId = false ∧
         ∃ t, pyOr c.headerToken c.queryToken = some t ∧ t ≠ "" ∧
           t = s.publicToken)) := by
  cases hsu : s.userId with
  | none =>
      rw [guest_access_iff s c (by simp [truthyUserId, hsu])]
      constructor
      · intro h
        exact Or.inr ⟨by simp [truthyUserId, hsu], h⟩
      · rintro (⟨u, hu, _⟩ | ⟨_, h⟩)
        · cases hu
        · exact h
  | some u =>
      by_cases hu0 : u = 0
      · subst hu0
        rw [guest_access_iff s c (by simp [truthyUserId, hsu])]
        constructor
        · intro h
          exact Or.inr ⟨by simp [truthyUserId, hsu], h⟩
        · rintro (⟨v, hv, hv0, _⟩ | ⟨_, h⟩)
          · cases hv
            exact absurd rfl hv0
          · exact h
      · constructor
        · intro h
          by_cases hauth : c.isAuthenticated = true
          · by_cases hid : c.userId = u
            · exact Or.inl ⟨u, rfl, hu0, hauth, hid⟩
            · exfalso
              have hne : u ≠ c.userId := fun he => hid he.symm
              simp [can_access_session, truthyUserId, hsu, hu0, hauth, hne] at h
          · exfalso
            simp [can_access_session, truthyUserId, hsu, hu0, hauth] at h
        · rintro (⟨v, hv, _hv0, hauth, hid⟩ | ⟨hf, _⟩)
          · cases hv
            simp [can_access_session, truthyUserId, hsu, hu0, hauth, hid]
          · simp [truthyUserId, hsu, hu0] at hf

/-- Claim C8: the engine client's failure classification — remote 400 maps
to a typed 400 error with the body surfaced, every other non-2xx status
(4xx or 5xx alike), a network failure, and a malformed-JSON 2xx body all
map to typed 502 errors, and a well-formed 2xx body is returned as-is. -/
theorem enginePost_classification {α : Type} :
    (∀ m : String, @enginePost α (.networkError m) =
        .error { detail := "Network error contacting interview engine: " ++ m,
                 status_code := 502 }) ∧
    (∀ (body : String) (j : Option α), @enginePost α (.response 400 body j) =
        .error { detail := if pyStrip body = "" then "Bad request to interview engine."
                           else pyStrip body,
                 status_code := 400 }) ∧
    (∀ (code : Nat) (body : String) (j : Option α),
        (code < 200 ∨ 300 ≤ code) → code ≠ 400 →
        @enginePost α (.response code body j) =
          .error { detail := "Interview engine error " ++ toString code ++ ": "
                              ++ pyStrip body,
                   status_code := 502 }) ∧
    (∀ (code : Nat) (body : String), 200 ≤ code → code < 300 →
        @enginePost α (.response code body (none : Option α)) =
          .error { detail := "Invalid JSON received from interview engine.",
                   status_code := 502 }) ∧
    (∀ (code : Nat) (body : String) (v : α), 200 ≤ code → code < 300 →
        @enginePost α (.response code body (some v)) = .ok v) := by
  refine ⟨?_, ?_, ?_, ?_, ?_⟩
  · intro m
    rfl
  · intro body j
    simp [enginePost]
  · intro code body j hno h400
    by_cases h5 : 500 ≤ code
    · simp [enginePost, hno, h400, h5]
    · simp [enginePost, hno, h400, h5]
  · intro code body h1 h2
    have hno : ¬(code < 200 ∨ 300 ≤ code) := by omega
    simp [enginePost, hno]
  · intro code body v h1 h2
    have hno : ¬(code < 200 ∨ 300 ≤ code) := by omega
    simp [enginePost, hno]

/-- Witness for C8: a remote 404 is classified as a 502 engine error, a
concrete instance of the non-400 non-2xx branch. -/
theorem enginePost_classification_witness :
    @enginePost GenerateResp (.response 404 "not found" none) =
      .error { detail := "Interview engine error " ++ toString 404 ++ ": "
                          ++ pyStrip "not found",
               status_code := 502 } :=
  enginePost_classification.2.2.1 404 "not found" none (Or.inr (by omega)) (by omega)

theorem contains_iff_mem_str (l : List String) (a : String) :
    l.contains a = true ↔ a ∈ l := by
  simp

/-- Claim C9: generate-more deduplication — an engine question whose
stripped, lowercased text matches an existing turn's stripped, lowercased
question is never persisted; every other usable question is persisted; and
when nothing survives the call returns 400 "No new questions generated."
without touching the session or its turns. -/
theorem generate_more_dedup (s : InterviewSession) (turns : List InterviewTurn)
    (caller : Caller) (count : Nat) (resp : GenerateResp)
    (hacc : can_access_session s caller = .allowed) :
    (gmQuestions turns resp = [] →
      (generateMoreView s turns caller count (.ok resp)).httpStatus = 400 ∧
      (generateMoreView s turns caller count (.ok resp)).detail =
        "No new questions generated." ∧
      (generateMoreView s turns caller count (.ok resp)).session = s ∧
      (generateMoreView s turns caller count (.ok resp)).turns = turns) ∧
    (∀ q ∈ usableQuestions resp.questions,
      pyLower (pyStrip q) ∈ normalizedSet (turns.map (fun t => t.question)) →
      q ∉ ((generateMoreView s turns caller count (.ok resp)).turns.drop
            turns.length).map (fun t => t.question)) ∧
    (∀ q ∈ usableQuestions resp.questions,
      pyLower (pyStrip q) ∉ normalizedSet (turns.map (fun t => t.question)) →
      q ∈ ((generateMoreView s turns caller count (.ok resp)).turns.drop
            turns.length).map (fun t => t.question)) := by
  have hdropq : ((generateMoreView s turns caller count (.ok resp)).turns.drop
      turns.length).map (fun t => t.question) = gmQuestions turns resp := by
    rcases hql : gmQuestions turns resp with _ | ⟨q, qs⟩
    · simp [generateMoreView, hacc, hql, List.drop_length]
    · have hdrop :
          (generateMoreView s turns caller count (.ok resp)).turns.drop turns.length =
            (List.enumFrom 0 (q :: qs)).map
              (fun iq => ({ order := maxOrder turns + 1 + iq.1, question := iq.2 } :
                InterviewTurn)) := by
        simp [generateMoreView, hacc, hql, List.drop_left]
      rw [hdrop, genTurns_questions (fun i => maxOrder turns + 1 + i) 0 (q :: qs)]
  refine ⟨?_, ?_, ?_⟩
  · intro hql
    refine ⟨?_, ?_, ?_, ?_⟩ <;> simp [generateMoreView, hacc, hql]
  · intro q _hq hdup
    rw [hdropq]
    intro hmem
    have hfil := (List.mem_filter.mp hmem).2
    have hcont : (normalizedSet (turns.map (fun t => t.question))).contains
        (pyLower (pyStrip q)) = false := by simpa using hfil
    have htrue := (contains_iff_mem_str
        (normalizedSet (turns.map (fun t => t.question))) (pyLower (pyStrip q))).mpr hdup
    rw [hcont] at htrue
    cases htrue
  · intro q hq hdup
    rw [hdropq]
    refine List.mem_filter.mpr ⟨hq, ?_⟩
    have : ¬ ((normalizedSet (turns.map (fun t => t.question))).contains
        (pyLower (pyStrip q)) = true) := fun hc =>
      hdup ((contains_iff_mem_str _ _).mp hc)
    simpa using this

/-- Witness for C9: an engine response consisting only of a case- and
whitespace-variant of an existing question is fully deduplicated and the
call returns 400. -/
theorem generate_more_dedup_witness :
    (generateMoreView gapGuestSession
        [{ order := 1, question := "What is Django?", answer := "x" }]
        guestTokenCaller 2 (.ok ⟨none, ["  WHAT IS DJANGO?  "]⟩)).httpStatus = 400 :=
  ((generate_more_dedup gapGuestSession
      [{ order := 1, question := "What is Django?", answer := "x" }]
      guestTokenCaller 2 ⟨none, ["  WHAT IS DJANGO?  "]⟩ (by decide)).1 (by decide)).1

end ICAI
